import Mathlib

/-!
Verification of the pdf-translator pipeline (src/translate.py, src/merge_pdfs.py)
against its natural-language specification.

The Python sources are shallowly embedded: the filesystem is a `List String`
of existing paths (files and directories alike), external collaborators
(the pdf2zh subprocess, PyMuPDF extraction, the translation APIs) are
oracles supplied through an `Env` record, and the fallible Python code is
modelled with explicit error values.  Machine arithmetic is `Nat`
(Python integers are unbounded, so no wrap-around modelling is needed).
-/

namespace PdfTranslator

/-! ### Small models of Python stdlib helpers (os.path, str methods) -/

/-- Model of `str.lower` for ASCII characters. -/
def charLower (c : Char) : Char :=
  if 65 ≤ c.toNat ∧ c.toNat ≤ 90 then Char.ofNat (c.toNat + 32) else c

/-- Model of `str.lower`. -/
def pyLower (s : String) : String := String.mk (s.data.map charLower)

/-- Characters removed by `str.strip()`. -/
def isSpaceChar (c : Char) : Bool := c == ' ' || c == '\t' || c == '\n' || c == '\r'

/-- Model of `str.strip()`. -/
def pyStrip (s : String) : String :=
  String.mk (((s.data.dropWhile isSpaceChar).reverse.dropWhile isSpaceChar).reverse)

/-- Model of `os.path.basename`: the part after the last slash. -/
def pathBasename (p : String) : String :=
  String.mk ((p.data.reverse.takeWhile (fun c => c != '/')).reverse)

/-- Model of `os.path.splitext(...)[0]`: drop the last dot-extension,
the whole name when there is no dot. -/
def stripExt (s : String) : String :=
  if s.data.contains '.' then
    String.mk (((s.data.reverse.dropWhile (fun c => c != '.')).drop 1).reverse)
  else s

/-- Model of `os.path.dirname`: the part before the last slash
(simplified: returns "" when there is no slash, and drops a trailing
root slash, which only affects which directory entry `makedirs` records). -/
def pathDirname (p : String) : String :=
  if p.data.contains '/' then
    String.mk (((p.data.reverse.dropWhile (fun c => c != '/')).drop 1).reverse)
  else ""

/-- Decimal digit character, as produced by Python `str(int)`. -/
def digitChar (k : Nat) : Char :=
  if k = 0 then '0' else if k = 1 then '1' else if k = 2 then '2'
  else if k = 3 then '3' else if k = 4 then '4' else if k = 5 then '5'
  else if k = 6 then '6' else if k = 7 then '7' else if k = 8 then '8' else '9'

/-- Fuel-driven decimal rendering of a natural number (the fuel is an upper
bound on the digit count, so the recursion is structural). -/
def natToStrAux : Nat → Nat → String
  | 0, _ => ""
  | fuel + 1, n => if n == 0 then "" else natToStrAux fuel (n / 10) ++ String.mk [digitChar (n % 10)]

/-- Model of Python `str(n)` for a natural number. -/
def natToStr (n : Nat) : String := if n == 0 then "0" else natToStrAux (n + 1) n

/-- Model of the format string `f"{n:03d}"` used for chunk numbering. -/
def pad3 (n : Nat) : String :=
  (if n < 10 then "00" else if n < 100 then "0" else "") ++ natToStr n

/-! ### Language table (translate.py `LANGUAGE_CODES`) -/

/-- The `LANGUAGE_CODES` dict of translate.py, as an association list. -/
def LANGUAGE_CODES : List (String × String) :=
  [("english", "en"), ("japanese", "ja"), ("chinese", "zh"), ("korean", "ko"),
   ("french", "fr"), ("german", "de"), ("spanish", "es"), ("italian", "it"),
   ("portuguese", "pt"), ("russian", "ru")]

/-- `LANGUAGE_CODES.get(lang.lower(), lang)`: resolve a language name to its
code, passing unknown names through verbatim. -/
def langCode (s : String) : String :=
  match LANGUAGE_CODES.find? (fun kv => kv.1 == pyLower s) with
  | some kv => kv.2
  | none => s

/-- `next((lang for lang, code in LANGUAGE_CODES.items() if code == c), c)`:
first language name whose code matches, else the code itself. -/
def langNameOf (code : String) : String :=
  match LANGUAGE_CODES.find? (fun kv => kv.2 == code) with
  | some kv => kv.1
  | none => code

/-! ### Splitter (translate.py `split_pdf`, lines 281-318) -/

/-- Page range of the i-th chunk (0-based), exactly as computed at
translate.py lines 299-300: `start_page = i * pages_per_chunk`,
`end_page = min((i+1) * pages_per_chunk - 1, total_pages - 1)`. -/
def chunkRange (pagesPerChunk totalPages i : Nat) : Nat × Nat :=
  (i * pagesPerChunk, min ((i + 1) * pagesPerChunk - 1) (totalPages - 1))

/-- `num_chunks = (total_pages + pages_per_chunk - 1) // pages_per_chunk`
(translate.py line 294; meaningful only for `pagesPerChunk > 0`,
Python raises ZeroDivisionError otherwise, see `split_pdf`). -/
def numChunks (totalPages pagesPerChunk : Nat) : Nat :=
  (totalPages + pagesPerChunk - 1) / pagesPerChunk

/-- The ordered chunk-range sequence produced by the splitter loop
(translate.py lines 298-315). -/
def splitRanges (totalPages pagesPerChunk : Nat) : List (Nat × Nat) :=
  (List.range (numChunks totalPages pagesPerChunk)).map (chunkRange pagesPerChunk totalPages)

/-- Pages copied into a chunk: `range(start_page, end_page + 1)`
(translate.py line 306). -/
def chunkPages (r : Nat × Nat) : List Nat :=
  (List.range (r.2 + 1 - r.1)).map (fun j => r.1 + j)

/-- Number of pages in a chunk `[start, end]`. -/
def chunkLen (r : Nat × Nat) : Nat := r.2 + 1 - r.1

/-- Chunk file name `os.path.join(temp_dir, f"chunk_{i+1:03d}.pdf")`
(translate.py line 310), for 0-based loop index `i`. -/
def chunkFileName (tempDir : String) (i : Nat) : String :=
  tempDir ++ "/chunk_" ++ pad3 (i + 1) ++ ".pdf"

/-- Model of `split_pdf(input_file, pages_per_chunk)`.  State: the list of
existing filesystem paths.  `tempfile.mkdtemp` (line 286) creates `tempDir`
first; with `pagesPerChunk = 0` the chunk-count division at line 294 then
raises ZeroDivisionError, modelled as `Except.error`.  Otherwise the chunk
files are written into the temporary directory and their paths returned. -/
def split_pdf (tempDir : String) (totalPages : Nat) (fs : List String)
    (pagesPerChunk : Nat) : List String × Except Unit (List String) :=
  let fs1 := tempDir :: fs
  if pagesPerChunk == 0 then (fs1, Except.error ())
  else
    let files := (List.range (numChunks totalPages pagesPerChunk)).map (chunkFileName tempDir)
    (files ++ fs1, Except.ok files)

/-! ### Backend adapter and output naming (translate.py `run_pdfmathtranslate`) -/

/-- Oracle for one `pdf2zh` subprocess invocation: whether `subprocess.run`
raises `CalledProcessError`, and which conventionally-named artifacts the
backend writes into its output directory. -/
structure Backend where
  raises : Bool
  mono : Bool
  dual : Bool

/-- `structured_output_dir = f"/app/data/output/translations/{target_lang_name}/{input_basename}"`
(translate.py line 136). -/
def outputDirFor (inputFile targetCode : String) : String :=
  "/app/data/output/translations/" ++ langNameOf targetCode ++ "/" ++ stripExt (pathBasename inputFile)

/-- Backend-native mono artifact `{output_dir}/{input_basename}-mono.pdf`
(translate.py line 167). -/
def expectedMonoPath (inputFile targetCode : String) : String :=
  outputDirFor inputFile targetCode ++ "/" ++ stripExt (pathBasename inputFile) ++ "-mono.pdf"

/-- Backend-native dual artifact `{output_dir}/{input_basename}-dual.pdf`
(translate.py line 168). -/
def expectedDualPath (inputFile targetCode : String) : String :=
  outputDirFor inputFile targetCode ++ "/" ++ stripExt (pathBasename inputFile) ++ "-dual.pdf"

/-- Final mono artifact `{output_dir}/{input_basename}_{target_lang_name}_translated.pdf`
(translate.py line 171). -/
def finalMonoPath (inputFile targetCode : String) : String :=
  outputDirFor inputFile targetCode ++ "/" ++ stripExt (pathBasename inputFile)
    ++ "_" ++ langNameOf targetCode ++ "_translated.pdf"

/-- Final dual artifact `{output_dir}/{input_basename}_{target_lang_name}_bilingual.pdf`
(translate.py line 172). -/
def finalDualPath (inputFile targetCode : String) : String :=
  outputDirFor inputFile targetCode ++ "/" ++ stripExt (pathBasename inputFile)
    ++ "_" ++ langNameOf targetCode ++ "_bilingual.pdf"

/-- Model of the `if os.path.exists(src): shutil.move(src, dst); success = True`
blocks at translate.py lines 177-187: the source path is removed, the
destination created, and the success flag set. -/
def moveIfExists (fs : List String) (src dst : String) (success : Bool) :
    List String × Bool :=
  if fs.contains src then (dst :: fs.erase src, true) else (fs, success)

/-- Model of the copy-to-requested-location block, translate.py lines 189-198:
guarded by `success and output_file and output_file.strip() and output_file != final_mono`;
`shutil.copy` raises `FileNotFoundError` when the mono artifact is absent, and
the surrounding `except` turns that into a `False` return (line 215-217). -/
def copyToRequested (fs : List String) (success : Bool) (finalMono : String)
    (outputFile : Option String) : List String × Bool :=
  match outputFile with
  | none => (fs, success)
  | some o =>
    if success && (pyStrip o != "") && (o != finalMono) then
      let fs1 := if pathDirname o != "" then pathDirname o :: fs else fs
      if fs1.contains finalMono then (o :: fs1, success) else (fs1, false)
    else (fs, success)

/-- Model of `run_pdfmathtranslate(input_file, output_file, source_lang_code,
target_lang_code, custom_engine)` (translate.py lines 126-217).  Returns the
filesystem after the call together with the boolean result.  The source-code
argument and the custom-engine argument only affect the subprocess command
line, which the `Backend` oracle abstracts, so they are unused here. -/
def run_pdfmathtranslate (be : Backend) (fs : List String) (inputFile : String)
    (outputFile : Option String) (_sourceCode : String) (targetCode : String)
    (_customEngine : Option String) : List String × Bool :=
  let fs0 := outputDirFor inputFile targetCode :: fs
  if be.raises then (fs0, false)
  else
    let em := expectedMonoPath inputFile targetCode
    let ed := expectedDualPath inputFile targetCode
    let fs1 := (if be.mono then [em] else []) ++ (if be.dual then [ed] else []) ++ fs0
    let r1 := moveIfExists fs1 em (finalMonoPath inputFile targetCode) false
    let r2 := moveIfExists r1.1 ed (finalDualPath inputFile targetCode) r1.2
    copyToRequested r2.1 r2.2 (finalMonoPath inputFile targetCode) outputFile

/-! ### Environment oracles shared by the pipeline -/

/-- Ambient process state and external collaborators: availability flags set
at import time from the environment, the per-invocation backend behaviour,
PyMuPDF text extraction, the translation APIs, and the input document's
metadata read via `fitz.open` / `os.path.getsize`. -/
structure Env where
  mergerAvailable : Bool
  openaiAvailable : Bool
  geminiAvailable : Bool
  claudeAvailable : Bool
  backend : Nat → Backend
  segments : Nat → List String
  api : String → String
  analysisRaises : Bool
  pageCount : Nat
  sizeBytes : Nat
  tempDir : String

/-- Whether selecting `engine` raises `ValueError` inside the per-segment
translation loop: `translate_with_openai/gemini/claude` raise when their key
is not configured (translate.py lines 74-75, 92-93, 110-111), and an unknown
engine name raises at line 261. -/
def engineAvailable (env : Env) (engine : String) : Bool :=
  if engine == "openai" then env.openaiAvailable
  else if engine == "gemini" then env.geminiAvailable
  else if engine == "claude" then env.claudeAvailable
  else false

/-! ### Custom translation path (translate.py `custom_translate`) -/

/-- The output file actually passed on to the backend call: the caller's
path when it is non-empty, else `f"{base_name}_{target_lang_code}.pdf"`
(translate.py lines 268-272). -/
def customDefaultOutput (inputFile : String) (outputFile : Option String)
    (targetCode : String) : String :=
  match outputFile with
  | some o =>
    if pyStrip o != "" then o
    else stripExt (pathBasename inputFile) ++ "_" ++ targetCode ++ ".pdf"
  | none => stripExt (pathBasename inputFile) ++ "_" ++ targetCode ++ ".pdf"

/-- Model of `custom_translate(input_file, output_file, source_lang,
target_lang, engine, model)` (translate.py lines 236-279).  Text segments
are extracted, each one is translated through the selected API into the
local `translated_segments` list, and the function then delegates to
`run_pdfmathtranslate` with no custom engine.  If the engine is unknown or
its key is missing, the first loop iteration raises and the `except` returns
`False` — but only when there is at least one segment. -/
def custom_translate (env : Env) (be : Backend) (fs : List String)
    (inputFile : String) (outputFile : Option String)
    (sourceLang targetLang engine : String) (segs : List String) :
    List String × Bool :=
  let sourceLangCode := langCode sourceLang
  let targetLangCode := langCode targetLang
  if !segs.isEmpty && !engineAvailable env engine then (fs, false)
  else
    let _translatedSegments := segs.map env.api
    run_pdfmathtranslate be fs inputFile
      (some (customDefaultOutput inputFile outputFile targetLangCode))
      sourceLangCode targetLangCode none

/-! ### Merger (translate.py `merge_pdfs` and merge_pdfs.py `merge_pdf_files`) -/

/-- Result of a merge call: which input artifacts were appended into the
output (in order), the boolean return, and the filesystem afterwards. -/
structure MergeResult where
  merged : List String
  success : Bool
  fsAfter : List String

/-- Model of translate.py `merge_pdfs(pdf_files, output_file)` (lines
320-351): fails when PyPDF2 is absent or the list is empty; otherwise each
listed file is appended only if it exists — a missing file is logged and
skipped (lines 333-337) — the output directory is created and the merged
file written. -/
def merge_pdfs (mergerAvailable : Bool) (fs : List String)
    (pdfFiles : List String) (outputFile : String) : MergeResult :=
  if !mergerAvailable then ⟨[], false, fs⟩
  else if pdfFiles.isEmpty then ⟨[], false, fs⟩
  else
    let appended := pdfFiles.filter (fun p => fs.contains p)
    let fs1 := if pathDirname outputFile != "" then pathDirname outputFile :: fs else fs
    ⟨appended, true, outputFile :: fs1⟩

/-- Model of merge_pdfs.py `merge_pdf_files(files, output_file,
delete_originals)` (lines 62-107): appends every listed file with **no**
existence check, so `merger.append` raises `FileNotFoundError` on the first
missing file and the `except` returns `False` with nothing written; on
success the output is written and the originals optionally deleted. -/
def merge_pdf_files (mergerAvailable : Bool) (fs : List String)
    (files : List String) (outputFile : String) (deleteOriginals : Bool) :
    MergeResult :=
  if !mergerAvailable then ⟨[], false, fs⟩
  else if files.isEmpty then ⟨[], false, fs⟩
  else if files.all (fun f => fs.contains f) then
    let fs1 := if pathDirname outputFile != "" then pathDirname outputFile :: fs else fs
    let fs2 := outputFile :: fs1
    ⟨files, true, if deleteOriginals then fs2.filter (fun p => !files.contains p) else fs2⟩
  else ⟨[], false, fs⟩

/-! ### Orchestrator (translate.py `process_large_pdf`) -/

/-- Observable outcome of one `process_large_pdf` run. -/
structure PipelineResult where
  fs : List String
  success : Bool
  monoFiles : List String
  dualFiles : List String
  translateCalls : Nat
  chunkFiles : List String
  splitError : Bool

/-- Accumulator of the per-chunk loop (translate.py lines 375-408). -/
structure ChunkAcc where
  fs : List String
  mono : List String
  dual : List String
  calls : Nat

/-- One iteration of the chunk loop (translate.py lines 379-408): create the
chunk's output directory, invoke the translator (default backend or custom
engine), then collect whichever expected artifacts exist. -/
def processChunk (env : Env) (sdir tname sourceLang targetLang engine : String)
    (i : Nat) (acc : ChunkAcc) (chunkFile : String) : ChunkAcc :=
  let cb := stripExt (pathBasename chunkFile)
  let cdir := sdir ++ "/" ++ cb
  let r :=
    if engine == "default" then
      run_pdfmathtranslate (env.backend i) (cdir :: acc.fs) chunkFile none
        (langCode sourceLang) (langCode targetLang) none
    else
      custom_translate env (env.backend i) (cdir :: acc.fs) chunkFile none
        sourceLang targetLang engine (env.segments i)
  let em := cdir ++ "/" ++ cb ++ "_" ++ tname ++ "_translated.pdf"
  let ed := cdir ++ "/" ++ cb ++ "_" ++ tname ++ "_bilingual.pdf"
  { fs := r.1
    mono := acc.mono ++ (if r.2 && r.1.contains em then [em] else [])
    dual := acc.dual ++ (if r.2 && r.1.contains ed then [ed] else [])
    calls := acc.calls + 1 }

/-- One kind's merge step in `process_large_pdf` (translate.py lines
412-427): a kind with an empty accumulated list is skipped silently,
otherwise it is merged and a successful merge sets `translation_success`
(the flag can only be raised, never cleared). -/
def mergeKindStep (mergerAvailable : Bool) (st : List String × Bool)
    (files : List String) (out : String) : List String × Bool :=
  if files.isEmpty then st
  else
    let mr := merge_pdfs mergerAvailable st.1 files out
    (mr.fsAfter, st.2 || mr.success)

/-- The final copy in `process_large_pdf` (translate.py lines 429-436): on
success, when a distinct non-empty output path was requested and the merged
mono artifact exists, it is copied there (the existence check makes this
copy exception-free, unlike the one in `run_pdfmathtranslate`). -/
def finalCopyStep (st : List String × Bool) (fm : String)
    (outputFile : Option String) : List String × Bool :=
  match outputFile with
  | some o =>
    if st.2 && (pyStrip o != "") && st.1.contains fm && (o != fm) then
      (o :: (if pathDirname o != "" then pathDirname o :: st.1 else st.1), st.2)
    else st
  | none => st

/-- The merge-and-finalize tail of `process_large_pdf` (translate.py lines
410-438): `translation_success` starts false, each kind with a non-empty
accumulated list is merged, and the mono artifact is finally copied to the
caller's path when requested.  Returns the filesystem and the flag. -/
def finishPipeline (mergerAvailable : Bool) (acc : ChunkAcc) (fm fd : String)
    (outputFile : Option String) : List String × Bool :=
  finalCopyStep
    (mergeKindStep mergerAvailable
      (mergeKindStep mergerAvailable (acc.fs, false) acc.mono fm) acc.dual fd)
    fm outputFile

/-- Model of `process_large_pdf(input_file, output_file, source_lang,
target_lang, engine, model, pages_per_chunk)` (translate.py lines 353-444).
The document's page count and the `mkdtemp` result come from `env`; a
ZeroDivisionError inside `split_pdf` is caught by the generic `except`
(lines 440-444) and reported as failure. -/
def process_large_pdf (env : Env) (fs0 : List String) (inputFile : String)
    (outputFile : Option String) (sourceLang targetLang engine : String)
    (pagesPerChunk : Nat) : PipelineResult :=
  let targetLangCode := langCode targetLang
  let tname := langNameOf targetLangCode
  let ob := stripExt (pathBasename inputFile)
  let sdir := "/app/data/output/translations/" ++ tname ++ "/" ++ ob
  let fs1 := sdir :: fs0
  let fm := sdir ++ "/" ++ ob ++ "_" ++ tname ++ "_translated.pdf"
  let fd := sdir ++ "/" ++ ob ++ "_" ++ tname ++ "_bilingual.pdf"
  match split_pdf env.tempDir env.pageCount fs1 pagesPerChunk with
  | (fs2, Except.error _) => ⟨fs2, false, [], [], 0, [], true⟩
  | (fs2, Except.ok chunkFiles) =>
    let acc := chunkFiles.enum.foldl
      (fun a pr => processChunk env sdir tname sourceLang targetLang engine pr.1 a pr.2)
      ⟨fs2, [], [], 0⟩
    let fin := finishPipeline env.mergerAvailable acc fm fd outputFile
    ⟨fin.1, fin.2, acc.mono, acc.dual, acc.calls, chunkFiles, false⟩

/-! ### Entry point (translate.py `main`, lines 446-521) -/

/-- Parsed command-line arguments of translate.py. -/
structure Args where
  inputFile : String
  output : Option String
  sourceLang : String
  targetLang : String
  engine : String
  pagesPerChunk : Nat
  large : Bool

/-- Output default: `f"{base_name}_{args.target_lang}.pdf"` when `--output`
is absent or empty (translate.py lines 462-465). -/
def defaultedOutput (a : Args) : String :=
  match a.output with
  | some o =>
    if o == "" then stripExt (pathBasename a.inputFile) ++ "_" ++ a.targetLang ++ ".pdf"
    else o
  | none => stripExt (pathBasename a.inputFile) ++ "_" ++ a.targetLang ++ ".pdf"

/-- `is_large_pdf = args.large or page_count > 30 or file_size_mb > 10`
(translate.py line 493); when the PDF analysis raises, only the flag is used
(line 496).  `file_size_mb > 10` with the exact float division by `2^20` is
equivalent to `sizeBytes > 10 * 1048576`. -/
def isLargePdf (env : Env) (a : Args) : Bool :=
  if env.analysisRaises then a.large
  else a.large || decide (30 < env.pageCount) || decide (10 * 1048576 < env.sizeBytes)

/-- The routing decision of translate.py line 499: the single-document path
is taken exactly when `args.engine == "default" and not is_large_pdf`;
every other invocation goes through the chunked pipeline. -/
def usesChunkedPipeline (env : Env) (a : Args) : Bool :=
  !(a.engine == "default" && !isLargePdf env a)

/-- Model of `main()` (translate.py lines 446-519): returns the Python
function's return value, 0 on reported success and 1 otherwise. -/
def translateMain (env : Env) (fs : List String) (a : Args) : Nat :=
  let out := defaultedOutput a
  let sourceLangCode := langCode a.sourceLang
  let targetLangCode := langCode a.targetLang
  if !fs.contains a.inputFile then 1
  else
    let success :=
      if usesChunkedPipeline env a then
        (process_large_pdf env fs a.inputFile (some out) a.sourceLang a.targetLang
          a.engine a.pagesPerChunk).success
      else
        (run_pdfmathtranslate (env.backend 0) fs a.inputFile (some out)
          sourceLangCode targetLangCode none).2
    if success then 0 else 1

/-- Model of the script entry `if __name__ == "__main__": main()` (translate.py
lines 520-521): `main()`'s return value is computed and then discarded — no
`sys.exit` — so the interpreter terminates the process with status 0. -/
def processExitStatus (env : Env) (fs : List String) (a : Args) : Nat :=
  let _r := translateMain env fs a
  0

/-! ### Named components of a `process_large_pdf` run, for stating theorems -/

/-- The structured output directory of a pipeline run (translate.py line 363). -/
def pipelineSdir (inputFile targetLang : String) : String :=
  "/app/data/output/translations/" ++ langNameOf (langCode targetLang) ++ "/"
    ++ stripExt (pathBasename inputFile)

/-- The final mono artifact location of a pipeline run (translate.py line 367). -/
def pipelineFinalMono (inputFile targetLang : String) : String :=
  pipelineSdir inputFile targetLang ++ "/" ++ stripExt (pathBasename inputFile)
    ++ "_" ++ langNameOf (langCode targetLang) ++ "_translated.pdf"

/-- The final dual artifact location of a pipeline run (translate.py line 368). -/
def pipelineFinalDual (inputFile targetLang : String) : String :=
  pipelineSdir inputFile targetLang ++ "/" ++ stripExt (pathBasename inputFile)
    ++ "_" ++ langNameOf (langCode targetLang) ++ "_bilingual.pdf"

/-- The chunk files produced by `split_pdf` in a pipeline run. -/
def pipelineChunkFiles (env : Env) (pagesPerChunk : Nat) : List String :=
  (List.range (numChunks env.pageCount pagesPerChunk)).map (chunkFileName env.tempDir)

/-- The accumulator state after the whole chunk loop of a pipeline run. -/
def pipelineAcc (env : Env) (fs0 : List String)
    (inputFile sourceLang targetLang engine : String) (pagesPerChunk : Nat) :
    ChunkAcc :=
  (pipelineChunkFiles env pagesPerChunk).enum.foldl
    (fun a pr => processChunk env (pipelineSdir inputFile targetLang)
      (langNameOf (langCode targetLang)) sourceLang targetLang engine pr.1 a pr.2)
    ⟨pipelineChunkFiles env pagesPerChunk
      ++ (env.tempDir :: (pipelineSdir inputFile targetLang :: fs0)), [], [], 0⟩

/-! ### Auxiliary observations used in the theorems -/

/-- The fifth-from-last character of a path.  All paths the pipeline ever
removes from the filesystem (the `shutil.move` sources `...-mono.pdf` and
`...-dual.pdf`) have 'o' or 'l' there, while chunk files end in a decimal
digit followed by ".pdf" — this separates the two families. -/
def fifthLast (s : String) : Option Char := (s.data.reverse.drop 4).head?

/-- Concrete environment used to instantiate theorems on sample runs: every
API key configured, PyPDF2 present, a backend that always produces the mono
artifact, a one-page input document. -/
def sampleEnv : Env :=
  { mergerAvailable := true, openaiAvailable := true, geminiAvailable := true,
    claudeAvailable := true, backend := fun _ => ⟨false, true, false⟩,
    segments := fun _ => [], api := fun s => s, analysisRaises := false,
    pageCount := 1, sizeBytes := 0, tempDir := "/tmp/pdf_translate_tmp1" }

/-- Concrete default command line used to instantiate theorems. -/
def sampleArgs : Args :=
  { inputFile := "doc.pdf", output := none, sourceLang := "english",
    targetLang := "japanese", engine := "default", pagesPerChunk := 20,
    large := false }


/-! ### Helper lemmas -/

lemma one_le_succ_mul (k p : Nat) (hp : 1 ≤ p) : 1 ≤ (k + 1) * p := by
  calc 1 = 1 * 1 := by omega
  _ ≤ (k + 1) * p := Nat.mul_le_mul (by omega) hp

lemma numChunks_mul_ge (t p : Nat) (hp : 1 ≤ p) : t ≤ numChunks t p * p := by
  unfold numChunks
  have h := Nat.div_add_mod (t + p - 1) p
  have hm : (t + p - 1) % p < p := Nat.mod_lt _ (by omega)
  rw [Nat.mul_comm]
  omega

lemma numChunks_pred_mul_lt (t p : Nat) (ht : 1 ≤ t) (hp : 1 ≤ p) :
    (numChunks t p - 1) * p < t := by
  unfold numChunks
  have h := Nat.div_add_mod (t + p - 1) p
  have hm : (t + p - 1) % p < p := Nat.mod_lt _ (by omega)
  rw [Nat.sub_mul, Nat.one_mul, Nat.mul_comm]
  omega

lemma numChunks_pos (t p : Nat) (ht : 1 ≤ t) (hp : 1 ≤ p) : 1 ≤ numChunks t p := by
  have h1 := numChunks_mul_ge t p hp
  by_contra h
  have h0 : numChunks t p = 0 := by omega
  rw [h0] at h1
  omega

lemma flatMap_chunkPages (t p : Nat) (ht : 1 ≤ t) (hp : 1 ≤ p) (k : Nat) :
    ((List.range k).map (chunkRange p t)).flatMap chunkPages
      = List.range (min (k * p) t) := by
  induction k with
  | zero => simp
  | succ k ih =>
    rw [List.range_succ, List.map_append, List.flatMap_append, ih]
    have h1 : 1 ≤ (k + 1) * p := one_le_succ_mul k p hp
    have hkk : k * p ≤ (k + 1) * p := Nat.mul_le_mul_right p (by omega)
    simp only [List.map_cons, List.map_nil, List.flatMap_cons, List.flatMap_nil,
      List.append_nil]
    show List.range (min (k * p) t) ++ chunkPages (chunkRange p t k)
        = List.range (min ((k + 1) * p) t)
    unfold chunkPages chunkRange
    simp only
    have hlen : min ((k + 1) * p - 1) (t - 1) + 1 - k * p
        = min ((k + 1) * p) t - k * p := by omega
    rw [hlen]
    by_cases hc : t ≤ k * p
    · have h2 : min (k * p) t = t := by omega
      have h3 : min ((k + 1) * p) t = t := by omega
      have h4 : t - k * p = 0 := by omega
      rw [h2, h3, h4]
      simp
    · have h2 : min (k * p) t = k * p := by omega
      rw [h2, ← List.range_add]
      congr 1
      omega

lemma append_ne_left (a x : String) (hx : x.data ≠ []) : a ++ x ≠ a := by
  intro h
  have hd : (a ++ x).data = a.data := congrArg String.data h
  rw [String.data_append] at hd
  have hl := congrArg List.length hd
  rw [List.length_append] at hl
  have h0 : x.data.length = 0 := by omega
  exact hx (List.length_eq_zero.mp h0)

lemma fifthLast_append (x lit : String) (h5 : 5 ≤ lit.data.length) :
    fifthLast (x ++ lit) = fifthLast lit := by
  unfold fifthLast
  rw [String.data_append, List.reverse_append]
  rw [List.drop_append_of_le_length (by rw [List.length_reverse]; omega)]
  have hne : lit.data.reverse.drop 4 ≠ [] := by
    intro h0
    have h1 : (lit.data.reverse.drop 4).length = 0 := by rw [h0]; rfl
    rw [List.length_drop, List.length_reverse] at h1
    omega
  obtain ⟨c, cs, hc⟩ := List.exists_cons_of_ne_nil hne
  rw [hc]
  rfl

lemma fifthLast_expectedMono (i tc : String) :
    fifthLast (expectedMonoPath i tc) = some 'o' := by
  unfold expectedMonoPath
  rw [fifthLast_append _ _ (by decide)]
  decide

lemma fifthLast_expectedDual (i tc : String) :
    fifthLast (expectedDualPath i tc) = some 'l' := by
  unfold expectedDualPath
  rw [fifthLast_append _ _ (by decide)]
  decide

lemma fifthLast_finalMono (i tc : String) :
    fifthLast (finalMonoPath i tc) = some 'd' := by
  unfold finalMonoPath
  rw [fifthLast_append _ _ (by decide)]
  decide

lemma fifthLast_finalDual (i tc : String) :
    fifthLast (finalDualPath i tc) = some 'l' := by
  unfold finalDualPath
  rw [fifthLast_append _ _ (by decide)]
  decide

lemma data_length_append (a b : String) :
    (a ++ b).data.length = a.data.length + b.data.length := by
  rw [String.data_append, List.length_append]

lemma expectedMono_ne_outputDir (i tc : String) :
    expectedMonoPath i tc ≠ outputDirFor i tc := by
  intro h
  have h1 := congrArg (fun s => s.data.length) h
  simp only [expectedMonoPath, data_length_append] at h1
  simp at h1
  omega

lemma finalMono_ne_outputDir (i tc : String) :
    finalMonoPath i tc ≠ outputDirFor i tc := by
  intro h
  have h1 := congrArg (fun s => s.data.length) h
  simp only [finalMonoPath, data_length_append] at h1
  simp at h1
  omega


lemma mem_moveIfExists (fs : List String) (src dst : String) (s : Bool) (p : String)
    (hp : p ∈ fs) (hne : p ≠ src) : p ∈ (moveIfExists fs src dst s).1 := by
  unfold moveIfExists
  split
  · exact List.mem_cons_of_mem _ ((List.mem_erase_of_ne hne).mpr hp)
  · exact hp

lemma mem_copyToRequested (fs : List String) (s : Bool) (fm : String)
    (o : Option String) (p : String) (hp : p ∈ fs) :
    p ∈ (copyToRequested fs s fm o).1 := by
  cases o with
  | none => exact hp
  | some o' =>
    simp only [copyToRequested]
    split
    · split
      · split
        · exact List.mem_cons_of_mem _ (List.mem_cons_of_mem _ hp)
        · exact List.mem_cons_of_mem _ hp
      · split
        · exact List.mem_cons_of_mem _ hp
        · exact hp
    · exact hp

lemma mem_run_pdfmathtranslate (be : Backend) (fs : List String) (i : String)
    (o : Option String) (sc tc : String) (ce : Option String) (p : String)
    (hp : p ∈ fs) (ho : fifthLast p ≠ some 'o') (hl : fifthLast p ≠ some 'l') :
    p ∈ (run_pdfmathtranslate be fs i o sc tc ce).1 := by
  unfold run_pdfmathtranslate
  split
  · exact List.mem_cons_of_mem _ hp
  · have hne1 : p ≠ expectedMonoPath i tc := by
      intro h
      rw [h, fifthLast_expectedMono] at ho
      exact ho rfl
    have hne2 : p ≠ expectedDualPath i tc := by
      intro h
      rw [h, fifthLast_expectedDual] at hl
      exact hl rfl
    have hfs1 : p ∈ ((if be.mono then [expectedMonoPath i tc] else []) ++
        (if be.dual then [expectedDualPath i tc] else [])) ++
          (outputDirFor i tc :: fs) := by
      simp [List.mem_append, List.mem_cons, hp]
    exact mem_copyToRequested _ _ _ _ _
      (mem_moveIfExists _ _ _ _ _ (mem_moveIfExists _ _ _ _ _ hfs1 hne1) hne2)

lemma mem_custom_translate (env : Env) (be : Backend) (fs : List String)
    (i : String) (o : Option String) (sl tl e : String) (segs : List String)
    (p : String) (hp : p ∈ fs) (ho : fifthLast p ≠ some 'o')
    (hl : fifthLast p ≠ some 'l') :
    p ∈ (custom_translate env be fs i o sl tl e segs).1 := by
  unfold custom_translate
  split
  · exact hp
  · exact mem_run_pdfmathtranslate _ _ _ _ _ _ _ _ hp ho hl

lemma mem_processChunk (env : Env) (sdir tname sl tl e : String) (j : Nat)
    (acc : ChunkAcc) (cf : String) (p : String) (hp : p ∈ acc.fs)
    (ho : fifthLast p ≠ some 'o') (hl : fifthLast p ≠ some 'l') :
    p ∈ (processChunk env sdir tname sl tl e j acc cf).fs := by
  show p ∈ (if e == "default" then
      run_pdfmathtranslate (env.backend j)
        ((sdir ++ "/" ++ stripExt (pathBasename cf)) :: acc.fs) cf none
        (langCode sl) (langCode tl) none
    else
      custom_translate env (env.backend j)
        ((sdir ++ "/" ++ stripExt (pathBasename cf)) :: acc.fs) cf none
        sl tl e (env.segments j)).1
  split
  · exact mem_run_pdfmathtranslate _ _ _ _ _ _ _ _ (List.mem_cons_of_mem _ hp) ho hl
  · exact mem_custom_translate _ _ _ _ _ _ _ _ _ _ (List.mem_cons_of_mem _ hp) ho hl

lemma mem_chunkLoop (env : Env) (sdir tname sl tl e : String)
    (l : List (Nat × String)) (acc : ChunkAcc) (p : String)
    (ho : fifthLast p ≠ some 'o') (hl : fifthLast p ≠ some 'l')
    (hp : p ∈ acc.fs) :
    p ∈ (l.foldl (fun a pr => processChunk env sdir tname sl tl e pr.1 a pr.2) acc).fs := by
  induction l generalizing acc with
  | nil => exact hp
  | cons hd tl2 ih =>
    exact ih _ (mem_processChunk _ _ _ _ _ _ _ _ _ _ hp ho hl)

lemma mem_merge_pdfs (ma : Bool) (fs : List String) (files : List String)
    (out : String) (p : String) (hp : p ∈ fs) :
    p ∈ (merge_pdfs ma fs files out).fsAfter := by
  unfold merge_pdfs
  split
  · exact hp
  · split
    · exact hp
    · refine List.mem_cons_of_mem _ ?_
      split
      · exact List.mem_cons_of_mem _ hp
      · exact hp

lemma mem_mergeKindStep (ma : Bool) (st : List String × Bool)
    (files : List String) (out : String) (p : String) (hp : p ∈ st.1) :
    p ∈ (mergeKindStep ma st files out).1 := by
  unfold mergeKindStep
  split
  · exact hp
  · exact mem_merge_pdfs _ _ _ _ _ hp

lemma mem_finalCopyStep (st : List String × Bool) (fm : String)
    (o : Option String) (p : String) (hp : p ∈ st.1) :
    p ∈ (finalCopyStep st fm o).1 := by
  cases o with
  | none => exact hp
  | some o' =>
    simp only [finalCopyStep]
    split
    · split
      · exact List.mem_cons_of_mem _ (List.mem_cons_of_mem _ hp)
      · exact List.mem_cons_of_mem _ hp
    · exact hp

lemma mem_finishPipeline (ma : Bool) (acc : ChunkAcc) (fm fd : String)
    (o : Option String) (p : String) (hp : p ∈ acc.fs) :
    p ∈ (finishPipeline ma acc fm fd o).1 := by
  exact mem_finalCopyStep _ _ _ _
    (mem_mergeKindStep _ _ _ _ _ (mem_mergeKindStep _ _ _ _ _ hp))

lemma finalCopyStep_snd (st : List String × Bool) (fm : String)
    (o : Option String) : (finalCopyStep st fm o).2 = st.2 := by
  cases o with
  | none => rfl
  | some o' =>
    simp only [finalCopyStep]
    split
    · rfl
    · rfl

lemma merge_pdfs_success (fs : List String) (files : List String) (out : String)
    (hne : files.isEmpty = false) :
    (merge_pdfs true fs files out).success = true := by
  unfold merge_pdfs
  simp [hne]

lemma mergeKindStep_snd (st : List String × Bool) (files : List String)
    (out : String) :
    (mergeKindStep true st files out).2 = (st.2 || !files.isEmpty) := by
  unfold mergeKindStep
  by_cases h : files.isEmpty
  · simp [h]
  · simp only [h, if_false]
    rw [merge_pdfs_success _ _ _ (by simpa using h)]
    simp [h]

lemma finishPipeline_snd (acc : ChunkAcc) (fm fd : String) (o : Option String) :
    (finishPipeline true acc fm fd o).2 = (!acc.mono.isEmpty || !acc.dual.isEmpty) := by
  unfold finishPipeline
  rw [finalCopyStep_snd, mergeKindStep_snd, mergeKindStep_snd]
  simp

lemma digitChar_ne (k : Nat) : digitChar k ≠ 'o' ∧ digitChar k ≠ 'l' := by
  unfold digitChar
  split
  · exact ⟨by decide, by decide⟩
  · split
    · exact ⟨by decide, by decide⟩
    · split
      · exact ⟨by decide, by decide⟩
      · split
        · exact ⟨by decide, by decide⟩
        · split
          · exact ⟨by decide, by decide⟩
          · split
            · exact ⟨by decide, by decide⟩
            · split
              · exact ⟨by decide, by decide⟩
              · split
                · exact ⟨by decide, by decide⟩
                · split
                  · exact ⟨by decide, by decide⟩
                  · exact ⟨by decide, by decide⟩

lemma natToStr_getLast_digit (n : Nat) :
    ∃ k, (natToStr n).data.getLast? = some (digitChar k) := by
  unfold natToStr
  by_cases h : (n == 0) = true
  · rw [if_pos h]
    exact ⟨0, by decide⟩
  · rw [if_neg h]
    show ∃ k, (natToStrAux (n + 1) n).data.getLast? = some (digitChar k)
    unfold natToStrAux
    rw [if_neg h]
    refine ⟨n % 10, ?_⟩
    rw [String.data_append]
    exact List.getLast?_concat _

lemma pad3_getLast_digit (n : Nat) :
    ∃ k, (pad3 n).data.getLast? = some (digitChar k) := by
  obtain ⟨k, hk⟩ := natToStr_getLast_digit n
  refine ⟨k, ?_⟩
  unfold pad3
  rw [String.data_append]
  rw [List.getLast?_append_of_ne_nil]
  · exact hk
  · intro h0
    rw [h0] at hk
    simp at hk

lemma fifthLast_chunkFileName (td : String) (i : Nat) :
    ∃ k, fifthLast (chunkFileName td i) = some (digitChar k) := by
  obtain ⟨k, hk⟩ := pad3_getLast_digit (i + 1)
  refine ⟨k, ?_⟩
  unfold fifthLast chunkFileName
  rw [String.data_append, String.data_append, List.reverse_append]
  rw [show (".pdf" : String).data.reverse = ['f', 'd', 'p', '.'] from by decide]
  rw [show (['f', 'd', 'p', '.'] : List Char)
        ++ ((td ++ "/chunk_").data ++ (pad3 (i + 1)).data).reverse
      = 'f' :: 'd' :: 'p' :: '.' :: ((td ++ "/chunk_").data ++ (pad3 (i + 1)).data).reverse
    from rfl]
  rw [List.drop_succ_cons, List.drop_succ_cons, List.drop_succ_cons, List.drop_succ_cons,
    List.drop_zero]
  rw [List.reverse_append]
  have hne : (pad3 (i + 1)).data.reverse ≠ [] := by
    intro h0
    have h1 : (pad3 (i + 1)).data = [] := by
      have := congrArg List.reverse h0
      simpa using this
    rw [h1] at hk
    simp at hk
  obtain ⟨c, cs, hc⟩ := List.exists_cons_of_ne_nil hne
  rw [hc]
  have hcc : c = digitChar k := by
    have h2 : (pad3 (i + 1)).data.getLast? = some c := by
      rw [← List.head?_reverse, hc]
      rfl
    rw [h2] at hk
    exact Option.some_inj.mp hk
  rw [show ((c :: cs) ++ (td ++ "/chunk_").data.reverse).head? = some c from rfl, hcc]

lemma chunkFileName_keep (td : String) (i : Nat) :
    fifthLast (chunkFileName td i) ≠ some 'o'
    ∧ fifthLast (chunkFileName td i) ≠ some 'l' := by
  obtain ⟨k, hk⟩ := fifthLast_chunkFileName td i
  rw [hk]
  have h := digitChar_ne k
  constructor
  · intro h0
    exact h.1 (Option.some_inj.mp h0)
  · intro h0
    exact h.2 (Option.some_inj.mp h0)

lemma process_large_pdf_zero (env : Env) (fs0 : List String)
    (i : String) (o : Option String) (sl tl e : String) :
    process_large_pdf env fs0 i o sl tl e 0 =
      ⟨env.tempDir :: (pipelineSdir i tl :: fs0), false, [], [], 0, [], true⟩ := rfl

lemma process_large_pdf_ok (env : Env) (fs0 : List String)
    (i : String) (o : Option String) (sl tl e : String) (ppc : Nat)
    (h : (ppc == 0) = false) :
    process_large_pdf env fs0 i o sl tl e ppc =
      ⟨(finishPipeline env.mergerAvailable (pipelineAcc env fs0 i sl tl e ppc)
          (pipelineFinalMono i tl) (pipelineFinalDual i tl) o).1,
       (finishPipeline env.mergerAvailable (pipelineAcc env fs0 i sl tl e ppc)
          (pipelineFinalMono i tl) (pipelineFinalDual i tl) o).2,
       (pipelineAcc env fs0 i sl tl e ppc).mono,
       (pipelineAcc env fs0 i sl tl e ppc).dual,
       (pipelineAcc env fs0 i sl tl e ppc).calls,
       pipelineChunkFiles env ppc, false⟩ := by
  unfold process_large_pdf split_pdf
  rw [h]
  rfl

lemma finishPipeline_empty_snd (ma : Bool) (fs : List String) (c : Nat)
    (fm fd : String) (o : Option String) :
    (finishPipeline ma ⟨fs, [], [], c⟩ fm fd o).2 = false := by
  unfold finishPipeline
  rw [finalCopyStep_snd]
  simp [mergeKindStep]

/-- Claim C2 (confirmed): with the PDF merger available, a run of the
chunked pipeline reports overall success exactly when at least one of the
two accumulated artifact lists (mono, dual) is non-empty after all chunks
have been processed, independently of how many chunk translations failed. -/
theorem process_large_pdf_success_iff (env : Env) (fs0 : List String)
    (i : String) (o : Option String) (sl tl e : String) (ppc : Nat)
    (hma : env.mergerAvailable = true) :
    ((process_large_pdf env fs0 i o sl tl e ppc).success = true
      ↔ (process_large_pdf env fs0 i o sl tl e ppc).monoFiles ≠ []
        ∨ (process_large_pdf env fs0 i o sl tl e ppc).dualFiles ≠ []) := by
  by_cases h : (ppc == 0) = true
  · have h0 : ppc = 0 := by simpa using h
    subst h0
    rw [process_large_pdf_zero]
    simp
  · rw [process_large_pdf_ok _ _ _ _ _ _ _ _ (by simpa using h)]
    simp only
    rw [hma, finishPipeline_snd]
    simp [List.isEmpty_iff]

/-- Claim C3 (amended): with `pagesPerChunk = 0` every run fails, creates no
chunk artifacts and attempts no translation; but the failure arises inside
`split_pdf` — the chunk-count division raises ZeroDivisionError after the
temporary directory has already been created, caught by the orchestrator's
generic handler — not from a pre-split InvalidInput validation. -/
theorem zero_chunk_size_fails_inside_split (env : Env) (fs0 : List String)
    (i : String) (o : Option String) (sl tl e : String) :
    (process_large_pdf env fs0 i o sl tl e 0).success = false
    ∧ (process_large_pdf env fs0 i o sl tl e 0).splitError = true
    ∧ (process_large_pdf env fs0 i o sl tl e 0).chunkFiles = []
    ∧ (process_large_pdf env fs0 i o sl tl e 0).translateCalls = 0
    ∧ env.tempDir ∈ (process_large_pdf env fs0 i o sl tl e 0).fs := by
  rw [process_large_pdf_zero]
  exact ⟨rfl, rfl, rfl, rfl, List.mem_cons_self _ _⟩

/-- Claim C4 (confirmed): for a document with 0 pages and a positive
`pagesPerChunk`, the splitter yields zero chunks and the run ends in
failure without a single translator invocation. -/
theorem empty_document_short_circuits (env : Env) (fs0 : List String)
    (i : String) (o : Option String) (sl tl e : String) (ppc : Nat)
    (h0 : env.pageCount = 0) (hp : 1 ≤ ppc) :
    (process_large_pdf env fs0 i o sl tl e ppc).success = false
    ∧ (process_large_pdf env fs0 i o sl tl e ppc).chunkFiles = []
    ∧ (process_large_pdf env fs0 i o sl tl e ppc).translateCalls = 0
    ∧ (process_large_pdf env fs0 i o sl tl e ppc).splitError = false := by
  have hne : (ppc == 0) = false := by
    simp only [beq_eq_false_iff_ne, ne_eq]
    omega
  rw [process_large_pdf_ok _ _ _ _ _ _ _ _ hne]
  have hcf : pipelineChunkFiles env ppc = [] := by
    unfold pipelineChunkFiles numChunks
    rw [h0]
    have hd : (0 + ppc - 1) / ppc = 0 := Nat.div_eq_of_lt (by omega)
    rw [hd]
    rfl
  have hacc : pipelineAcc env fs0 i sl tl e ppc
      = ⟨env.tempDir :: (pipelineSdir i tl :: fs0), [], [], 0⟩ := by
    unfold pipelineAcc
    rw [hcf]
    rfl
  rw [hacc, hcf]
  exact ⟨finishPipeline_empty_snd _ _ _ _ _ _, rfl, rfl, rfl⟩

/-- Claim C5 (amended): the pipeline never deletes the splitter's temporary
directory or chunk files: at the end of every run — success, failure, or the
ZeroDivisionError path — they are still present in the final filesystem.
(The hypotheses only exclude a temporary-directory name that itself ends in
the backend artifact suffixes, which `mkdtemp`'s `pdf_translate_` prefix and
suffix-free naming never produce.) -/
theorem temp_artifacts_never_deleted (env : Env) (fs0 : List String)
    (i : String) (o : Option String) (sl tl e : String) (ppc : Nat)
    (ho : fifthLast env.tempDir ≠ some 'o')
    (hl : fifthLast env.tempDir ≠ some 'l') :
    env.tempDir ∈ (process_large_pdf env fs0 i o sl tl e ppc).fs
    ∧ ∀ c ∈ (process_large_pdf env fs0 i o sl tl e ppc).chunkFiles,
        c ∈ (process_large_pdf env fs0 i o sl tl e ppc).fs := by
  by_cases h : (ppc == 0) = true
  · have h0 : ppc = 0 := by simpa using h
    subst h0
    rw [process_large_pdf_zero]
    refine ⟨List.mem_cons_self _ _, ?_⟩
    intro c hc
    simp at hc
  · rw [process_large_pdf_ok _ _ _ _ _ _ _ _ (by simpa using h)]
    simp only
    constructor
    · apply mem_finishPipeline
      unfold pipelineAcc
      apply mem_chunkLoop _ _ _ _ _ _ _ _ _ ho hl
      simp [List.mem_append]
    · intro c hc
      have hc2 : c ∈ (List.range (numChunks env.pageCount ppc)).map (chunkFileName env.tempDir) := by
        simpa [pipelineChunkFiles] using hc
      obtain ⟨j, hj, rfl⟩ := List.mem_map.mp hc2
      have hk := chunkFileName_keep env.tempDir j
      apply mem_finishPipeline
      unfold pipelineAcc
      apply mem_chunkLoop _ _ _ _ _ _ _ _ _ hk.1 hk.2
      have hcc : chunkFileName env.tempDir j ∈ pipelineChunkFiles env ppc := by
        unfold pipelineChunkFiles
        exact List.mem_map_of_mem _ hj
      simp only [List.mem_append]
      exact Or.inl hcc

lemma contains_eq_false_of_not_mem {l : List String} {a : String} (h : a ∉ l) :
    l.contains a = false := by
  rw [Bool.eq_false_iff]
  intro hc
  exact h (List.elem_iff.mp hc)

lemma moveIfExists_not_found (fs : List String) (src dst : String) (s : Bool)
    (h : fs.contains src = false) : moveIfExists fs src dst s = (fs, s) := by
  unfold moveIfExists
  rw [h]
  rfl

lemma moveIfExists_head (rest : List String) (src dst : String) (s : Bool) :
    moveIfExists (src :: rest) src dst s = (dst :: rest, true) := by
  unfold moveIfExists
  have h : (src :: rest).contains src = true := by
    rw [List.elem_iff]
    exact List.mem_cons_self _ _
  rw [h]
  simp [List.erase_cons_head]

lemma fifthLast_ne_of_ne {a b : String} {c d : Char} (ha : fifthLast a = some c)
    (hb : fifthLast b = some d) (hcd : c ≠ d) : a ≠ b := by
  intro h
  rw [h, hb] at ha
  exact hcd (Option.some_inj.mp ha).symm

lemma copyToRequested_missing_source (fs : List String) (fm o : String)
    (hg1 : pyStrip o ≠ "") (hg2 : o ≠ fm) (hfm : fm ∉ fs)
    (hfd : fm ≠ pathDirname o) :
    copyToRequested fs true fm (some o)
      = ((if pathDirname o != "" then pathDirname o :: fs else fs), false) := by
  simp only [copyToRequested]
  rw [show (true && (pyStrip o != "") && (o != fm)) = true from by simp [hg1, hg2]]
  have hcont : (if pathDirname o != "" then pathDirname o :: fs else fs).contains fm
      = false := by
    split
    · refine contains_eq_false_of_not_mem ?_
      intro hmem
      rcases List.mem_cons.mp hmem with h | h
      · exact hfd h
      · exact hfm h
    · exact contains_eq_false_of_not_mem hfm
  rw [hcont]
  simp

set_option maxHeartbeats 1600000 in
/-- Claim C10 (confirmed): when the backend produces only the dual artifact
and the caller requested an output path distinct from the canonical mono
location, `run_pdfmathtranslate` returns failure — the copy of the absent
mono artifact raises FileNotFoundError, absorbed into the `False` return —
even though the dual artifact exists in the final filesystem. -/
theorem run_pdfmathtranslate_dual_only_fails (fs : List String)
    (i o sc tc : String) (ce : Option String)
    (h1 : pyStrip o ≠ "")
    (h2 : o ≠ finalMonoPath i tc)
    (h3 : finalMonoPath i tc ≠ pathDirname o)
    (h4 : expectedMonoPath i tc ∉ fs)
    (h5 : finalMonoPath i tc ∉ fs) :
    (run_pdfmathtranslate ⟨false, false, true⟩ fs i (some o) sc tc ce).2 = false
    ∧ finalDualPath i tc
        ∈ (run_pdfmathtranslate ⟨false, false, true⟩ fs i (some o) sc tc ce).1 := by
  have hm0 : (expectedDualPath i tc :: outputDirFor i tc :: fs).contains
      (expectedMonoPath i tc) = false := by
    refine contains_eq_false_of_not_mem ?_
    intro hmem
    rcases List.mem_cons.mp hmem with h | h
    · exact fifthLast_ne_of_ne (fifthLast_expectedMono i tc)
        (fifthLast_expectedDual i tc) (by decide) h
    · rcases List.mem_cons.mp h with h | h
      · exact expectedMono_ne_outputDir i tc h
      · exact h4 h
  have hrun : run_pdfmathtranslate ⟨false, false, true⟩ fs i (some o) sc tc ce
      = copyToRequested
          (moveIfExists
            (moveIfExists (expectedDualPath i tc :: outputDirFor i tc :: fs)
              (expectedMonoPath i tc) (finalMonoPath i tc) false).1
            (expectedDualPath i tc) (finalDualPath i tc)
            (moveIfExists (expectedDualPath i tc :: outputDirFor i tc :: fs)
              (expectedMonoPath i tc) (finalMonoPath i tc) false).2).1
          (moveIfExists
            (moveIfExists (expectedDualPath i tc :: outputDirFor i tc :: fs)
              (expectedMonoPath i tc) (finalMonoPath i tc) false).1
            (expectedDualPath i tc) (finalDualPath i tc)
            (moveIfExists (expectedDualPath i tc :: outputDirFor i tc :: fs)
              (expectedMonoPath i tc) (finalMonoPath i tc) false).2).2
          (finalMonoPath i tc) (some o) := rfl
  rw [moveIfExists_not_found _ _ _ _ hm0] at hrun
  dsimp only at hrun
  rw [moveIfExists_head] at hrun
  dsimp only at hrun
  have hnm : finalMonoPath i tc
      ∉ (finalDualPath i tc :: outputDirFor i tc :: fs) := by
    intro hmem
    rcases List.mem_cons.mp hmem with h | h
    · exact fifthLast_ne_of_ne (fifthLast_finalMono i tc)
        (fifthLast_finalDual i tc) (by decide) h
    · rcases List.mem_cons.mp h with h | h
      · exact finalMono_ne_outputDir i tc h
      · exact h5 h
  rw [copyToRequested_missing_source _ _ _ h1 h2 hnm h3] at hrun
  rw [hrun]
  constructor
  · split
    · rfl
    · rfl
  · split
    · exact List.mem_cons_of_mem _ (List.mem_cons_self _ _)
    · exact List.mem_cons_self _ _

/-- Claim C6 (amended): `main()` returns 0 on reported success and 1
otherwise, but the top-level `if __name__ == "__main__": main()` call
discards that value and neither script calls `sys.exit`, so the process
exit status is 0 on every invocation. -/
theorem exit_status_always_zero (env : Env) (fs : List String) (a : Args) :
    processExitStatus env fs a = 0
    ∧ (translateMain env fs a = 0 ∨ translateMain env fs a = 1) := by
  refine ⟨rfl, ?_⟩
  unfold translateMain
  dsimp only
  split
  · right
    rfl
  · split <;> split <;> simp

/-- Claim C7 (amended): translate.py's `merge_pdfs` skips missing artifacts
and completes using exactly the listed artifacts that exist (so merging
`[A, B, C]` with `B` missing succeeds using `A` and `C`); but merge_pdfs.py's
`merge_pdf_files` performs no existence check, and aborts with failure
whenever any listed artifact is missing. -/
theorem merge_missing_inputs (fs pdfFiles : List String) (out : String)
    (del : Bool) (hne : pdfFiles ≠ []) :
    (merge_pdfs true fs pdfFiles out).success = true
    ∧ (merge_pdfs true fs pdfFiles out).merged
        = pdfFiles.filter (fun p => fs.contains p)
    ∧ ((∃ f ∈ pdfFiles, f ∉ fs)
        → (merge_pdf_files true fs pdfFiles out del).success = false) := by
  have hie : pdfFiles.isEmpty = false := by simpa [List.isEmpty_iff] using hne
  refine ⟨?_, ?_, ?_⟩
  · unfold merge_pdfs
    simp [hie]
  · unfold merge_pdfs
    simp [hie]
  · rintro ⟨f, hf, hnf⟩
    unfold merge_pdf_files
    have hcond : ¬ ∀ x ∈ pdfFiles, x ∈ fs := fun hAll => hnf (hAll f hf)
    simp [hie, hcond]

/-- Claim C8 (amended): without the force-chunking flag and with successful
document analysis, the chunked pipeline is used exactly when the engine is
not "default", or the page count exceeds 30, or the file size exceeds
10 MB (10 * 2^20 bytes); the single-document path is used otherwise. -/
theorem auto_chunking_route (env : Env) (a : Args)
    (hlarge : a.large = false) (hraise : env.analysisRaises = false) :
    usesChunkedPipeline env a
      = (!(a.engine == "default") || decide (30 < env.pageCount)
          || decide (10 * 1048576 < env.sizeBytes)) := by
  unfold usesChunkedPipeline isLargePdf
  rw [hlarge, hraise]
  cases he : (a.engine == "default") <;>
    cases hb : decide (30 < env.pageCount) <;>
      cases hc : decide (10 * 1048576 < env.sizeBytes) <;> rfl

/-- Claim C9 (confirmed): whenever the selected API engine (openai, gemini
or claude) is available, `custom_translate` produces exactly the state and
result of `run_pdfmathtranslate` on the same input with no custom engine
(and the defaulted output path): the per-segment API translations are
accumulated in a local list and never written to any output or passed to
the backend, so all engines yield the same artifacts. -/
theorem custom_translate_refines_default (env : Env) (be : Backend)
    (fs : List String) (i : String) (o : Option String) (sl tl e : String)
    (segs : List String) (hav : engineAvailable env e = true) :
    custom_translate env be fs i o sl tl e segs
      = run_pdfmathtranslate be fs i
          (some (customDefaultOutput i o (langCode tl)))
          (langCode sl) (langCode tl) none := by
  unfold custom_translate
  rw [hav]
  simp

/-- Claim C1 (confirmed): for every document with `totalPages ≥ 1` and every
`pagesPerChunk ≥ 1`, the chunk ranges computed by `split_pdf` cover pages
`[0, totalPages-1]` exactly once in order with no gaps or overlaps, the
number of chunks equals `ceil(totalPages / pagesPerChunk)`, every chunk
except possibly the last contains exactly `pagesPerChunk` pages, and the
last contains between 1 and `pagesPerChunk` pages. -/
theorem split_pdf_partition (t p : Nat) (ht : 1 ≤ t) (hp : 1 ≤ p) :
    (splitRanges t p).flatMap chunkPages = List.range t
    ∧ (splitRanges t p).length = t / p + (if t % p = 0 then 0 else 1)
    ∧ (∀ r ∈ (splitRanges t p).dropLast, chunkLen r = p)
    ∧ (∀ r, (splitRanges t p).getLast? = some r → 1 ≤ chunkLen r ∧ chunkLen r ≤ p) := by
  have hK := numChunks_pos t p ht hp
  obtain ⟨k, hk⟩ : ∃ k, numChunks t p = k + 1 := ⟨numChunks t p - 1, by omega⟩
  have hko : k * p < t := by
    have h := numChunks_pred_mul_lt t p ht hp
    rw [hk] at h
    simpa using h
  have hhi : t ≤ (k + 1) * p := by
    have h := numChunks_mul_ge t p hp
    rwa [hk] at h
  refine ⟨?_, ?_, ?_, ?_⟩
  · rw [splitRanges, flatMap_chunkPages t p ht hp]
    have hmin : min (numChunks t p * p) t = t := by
      have h := numChunks_mul_ge t p hp
      omega
    rw [hmin]
  · simp only [splitRanges, List.length_map, List.length_range]
    unfold numChunks
    have hd := Nat.div_add_mod t p
    have hm : t % p < p := Nat.mod_lt _ (by omega)
    by_cases hr : t % p = 0
    · rw [if_pos hr]
      rw [show t + p - 1 = p * (t / p) + (p - 1) by omega]
      rw [Nat.mul_add_div (by omega : p > 0)]
      have h0 : (p - 1) / p = 0 := Nat.div_eq_of_lt (by omega)
      omega
    · rw [if_neg hr]
      rw [show t + p - 1 = p * (t / p) + (t % p + p - 1) by omega]
      rw [Nat.mul_add_div (by omega : p > 0)]
      have h1 : (t % p + p - 1) / p = 1 :=
        Nat.div_eq_of_lt_le (by omega) (by omega)
      omega
  · intro r hr
    rw [splitRanges, hk, List.range_succ, List.map_append] at hr
    simp only [List.map_cons, List.map_nil, List.dropLast_concat] at hr
    obtain ⟨i, hi, rfl⟩ := List.mem_map.mp hr
    rw [List.mem_range] at hi
    have hip : i * p + p ≤ k * p := by
      have h := Nat.mul_le_mul_right p (show i + 1 ≤ k by omega)
      rw [Nat.add_mul, Nat.one_mul] at h
      exact h
    unfold chunkLen chunkRange
    simp only
    rw [Nat.add_mul, Nat.one_mul]
    omega
  · intro r hr
    rw [splitRanges, hk, List.range_succ, List.map_append] at hr
    simp only [List.map_cons, List.map_nil, List.getLast?_concat, Option.some_inj] at hr
    subst hr
    have hhi2 : t ≤ k * p + p := by
      rw [Nat.add_mul, Nat.one_mul] at hhi
      exact hhi
    unfold chunkLen chunkRange
    simp only
    rw [Nat.add_mul, Nat.one_mul]
    omega

/-- Witness for claim C1 at `totalPages = 45`, `pagesPerChunk = 20`. -/
theorem split_pdf_partition_witness :
    (1 ≤ 45 ∧ 1 ≤ 20)
    ∧ ((splitRanges 45 20).flatMap chunkPages = List.range 45
      ∧ (splitRanges 45 20).length = 45 / 20 + (if 45 % 20 = 0 then 0 else 1)
      ∧ (∀ r ∈ (splitRanges 45 20).dropLast, chunkLen r = 20)
      ∧ (∀ r, (splitRanges 45 20).getLast? = some r
          → 1 ≤ chunkLen r ∧ chunkLen r ≤ 20)) :=
  ⟨⟨by decide, by decide⟩, split_pdf_partition 45 20 (by decide) (by decide)⟩

/-- Witness for claim C2 on a concrete run whose collector finds one mono
artifact (and therefore succeeds). -/
theorem process_large_pdf_success_iff_witness :
    sampleEnv.mergerAvailable = true
    ∧ ((process_large_pdf sampleEnv
          ["/app/data/output/translations/japanese/doc/chunk_001/chunk_001_japanese_translated.pdf"]
          "doc.pdf" none "english" "japanese" "default" 1).success = true
        ↔ (process_large_pdf sampleEnv
            ["/app/data/output/translations/japanese/doc/chunk_001/chunk_001_japanese_translated.pdf"]
            "doc.pdf" none "english" "japanese" "default" 1).monoFiles ≠ []
          ∨ (process_large_pdf sampleEnv
              ["/app/data/output/translations/japanese/doc/chunk_001/chunk_001_japanese_translated.pdf"]
              "doc.pdf" none "english" "japanese" "default" 1).dualFiles ≠ []) :=
  ⟨rfl, process_large_pdf_success_iff sampleEnv
    ["/app/data/output/translations/japanese/doc/chunk_001/chunk_001_japanese_translated.pdf"]
    "doc.pdf" none "english" "japanese" "default" 1 rfl⟩

/-- Claim C3 (counterexample): on `pagesPerChunk = 0` the run does fail with
no chunks, but not as an InvalidInput rejection issued before splitting:
`split_pdf` is entered and its temporary directory is created (it is in the
final filesystem) before the chunk-count division raises, so the failure
comes from inside splitting (`splitError`), contradicting "rejected ...
before any splitting is performed". -/
theorem invalid_chunk_size_counterexample :
    (process_large_pdf sampleEnv [] "doc.pdf" none "english" "japanese" "default" 0).success
      = false
    ∧ (process_large_pdf sampleEnv [] "doc.pdf" none "english" "japanese" "default" 0).splitError
      = true
    ∧ sampleEnv.tempDir
        ∈ (process_large_pdf sampleEnv [] "doc.pdf" none "english" "japanese" "default" 0).fs := by
  rw [process_large_pdf_zero]
  exact ⟨rfl, rfl, List.mem_cons_self _ _⟩

/-- Witness for claim C4 on a 0-page document with the default chunk size. -/
theorem empty_document_short_circuits_witness :
    ({ sampleEnv with pageCount := 0 } : Env).pageCount = 0 ∧ 1 ≤ 20
    ∧ ((process_large_pdf { sampleEnv with pageCount := 0 } [] "doc.pdf" none
          "english" "japanese" "default" 20).success = false
      ∧ (process_large_pdf { sampleEnv with pageCount := 0 } [] "doc.pdf" none
          "english" "japanese" "default" 20).chunkFiles = []
      ∧ (process_large_pdf { sampleEnv with pageCount := 0 } [] "doc.pdf" none
          "english" "japanese" "default" 20).translateCalls = 0
      ∧ (process_large_pdf { sampleEnv with pageCount := 0 } [] "doc.pdf" none
          "english" "japanese" "default" 20).splitError = false) :=
  ⟨rfl, by decide, empty_document_short_circuits { sampleEnv with pageCount := 0 } []
    "doc.pdf" none "english" "japanese" "default" 20 rfl (by decide)⟩

/-- Claim C5 (counterexample): a pipeline run that ends with overall success
and after which the splitter's chunk file and temporary directory are still
present in the filesystem — the temporary chunk artifacts are not deleted by
the time the run ends. -/
theorem temp_artifacts_counterexample :
    (process_large_pdf sampleEnv
        ["/app/data/output/translations/japanese/doc/chunk_001/chunk_001_japanese_translated.pdf"]
        "doc.pdf" none "english" "japanese" "default" 1).success = true
    ∧ "/tmp/pdf_translate_tmp1/chunk_001.pdf"
        ∈ (process_large_pdf sampleEnv
            ["/app/data/output/translations/japanese/doc/chunk_001/chunk_001_japanese_translated.pdf"]
            "doc.pdf" none "english" "japanese" "default" 1).fs
    ∧ sampleEnv.tempDir
        ∈ (process_large_pdf sampleEnv
            ["/app/data/output/translations/japanese/doc/chunk_001/chunk_001_japanese_translated.pdf"]
            "doc.pdf" none "english" "japanese" "default" 1).fs := by
  refine ⟨?_, ?_, ?_⟩ <;> decide

/-- Witness for claim C5's amended theorem on a concrete run. -/
theorem temp_artifacts_never_deleted_witness :
    (fifthLast sampleEnv.tempDir ≠ some 'o' ∧ fifthLast sampleEnv.tempDir ≠ some 'l')
    ∧ (sampleEnv.tempDir
        ∈ (process_large_pdf sampleEnv [] "doc.pdf" none "english" "japanese" "default" 1).fs
      ∧ ∀ c ∈ (process_large_pdf sampleEnv [] "doc.pdf" none "english" "japanese"
          "default" 1).chunkFiles,
          c ∈ (process_large_pdf sampleEnv [] "doc.pdf" none "english" "japanese"
            "default" 1).fs) :=
  ⟨⟨by decide, by decide⟩,
   temp_artifacts_never_deleted sampleEnv [] "doc.pdf" none "english" "japanese" "default" 1
     (by decide) (by decide)⟩

/-- Claim C6 (counterexample): an invocation whose input file does not exist,
on which `main()` returns 1 (translation failed) while the process exit
status is 0 — refuting "exit status is 1 otherwise". -/
theorem process_exit_zero_on_failure :
    translateMain sampleEnv [] sampleArgs = 1
    ∧ processExitStatus sampleEnv [] sampleArgs = 0 :=
  ⟨rfl, rfl⟩

/-- Claim C7 (counterexample): merge_pdfs.py's `merge_pdf_files` on the list
`[A, B, C]` with `B` missing returns failure and merges nothing — it aborts
instead of skipping the missing artifact. -/
theorem merge_pdf_files_aborts_on_missing :
    (["A.pdf", "C.pdf"] : List String).contains "B.pdf" = false
    ∧ (merge_pdf_files true ["A.pdf", "C.pdf"] ["A.pdf", "B.pdf", "C.pdf"]
        "out.pdf" false).success = false
    ∧ (merge_pdf_files true ["A.pdf", "C.pdf"] ["A.pdf", "B.pdf", "C.pdf"]
        "out.pdf" false).merged = [] := by
  refine ⟨?_, ?_, ?_⟩ <;> decide

/-- Witness for claim C7's amended theorem: merging `[A, B, C]` with `B`
missing through both merge implementations. -/
theorem merge_missing_inputs_witness :
    ((["A.pdf", "B.pdf", "C.pdf"] : List String) ≠ [])
    ∧ (merge_pdfs true ["A.pdf", "C.pdf"] ["A.pdf", "B.pdf", "C.pdf"]
        "out.pdf").success = true
    ∧ (merge_pdfs true ["A.pdf", "C.pdf"] ["A.pdf", "B.pdf", "C.pdf"]
        "out.pdf").merged
        = List.filter (fun p => (["A.pdf", "C.pdf"] : List String).contains p)
            ["A.pdf", "B.pdf", "C.pdf"]
    ∧ (merge_pdf_files true ["A.pdf", "C.pdf"] ["A.pdf", "B.pdf", "C.pdf"]
        "out.pdf" false).success = false :=
  ⟨by decide,
   (merge_missing_inputs ["A.pdf", "C.pdf"] ["A.pdf", "B.pdf", "C.pdf"] "out.pdf" false
     (by decide)).1,
   (merge_missing_inputs ["A.pdf", "C.pdf"] ["A.pdf", "B.pdf", "C.pdf"] "out.pdf" false
     (by decide)).2.1,
   (merge_missing_inputs ["A.pdf", "C.pdf"] ["A.pdf", "B.pdf", "C.pdf"] "out.pdf" false
     (by decide)).2.2 ⟨"B.pdf", by decide, by decide⟩⟩

/-- Claim C8 (counterexample): without the force-chunking flag, a 1-page,
0-byte document is still routed to the chunked pipeline when a non-default
engine is selected — refuting "chunked exactly when pages > 30 or size >
10 MB". -/
theorem engine_forces_chunking :
    usesChunkedPipeline sampleEnv { sampleArgs with engine := "openai" } = true
    ∧ ({ sampleArgs with engine := "openai" } : Args).large = false
    ∧ sampleEnv.pageCount ≤ 30
    ∧ sampleEnv.sizeBytes ≤ 10 * 1048576 := by
  refine ⟨?_, ?_, ?_, ?_⟩ <;> decide

/-- Witness for claim C8's amended theorem on the default command line. -/
theorem auto_chunking_route_witness :
    sampleArgs.large = false ∧ sampleEnv.analysisRaises = false
    ∧ usesChunkedPipeline sampleEnv sampleArgs
        = (!(sampleArgs.engine == "default") || decide (30 < sampleEnv.pageCount)
            || decide (10 * 1048576 < sampleEnv.sizeBytes)) :=
  ⟨rfl, rfl, auto_chunking_route sampleEnv sampleArgs rfl rfl⟩

/-- Witness for claim C9 with the openai engine on a one-segment document. -/
theorem custom_translate_refines_default_witness :
    engineAvailable sampleEnv "openai" = true
    ∧ custom_translate sampleEnv ⟨false, true, false⟩ [] "doc.pdf" none
        "english" "japanese" "openai" ["seg one"]
        = run_pdfmathtranslate ⟨false, true, false⟩ [] "doc.pdf"
            (some (customDefaultOutput "doc.pdf" none (langCode "japanese")))
            (langCode "english") (langCode "japanese") none :=
  ⟨rfl, custom_translate_refines_default sampleEnv ⟨false, true, false⟩ [] "doc.pdf" none
    "english" "japanese" "openai" ["seg one"] rfl⟩

/-- Witness for claim C10 on a concrete dual-only backend run. -/
theorem run_pdfmathtranslate_dual_only_fails_witness :
    (pyStrip "out.pdf" ≠ "" ∧ "out.pdf" ≠ finalMonoPath "doc.pdf" "ja"
      ∧ finalMonoPath "doc.pdf" "ja" ≠ pathDirname "out.pdf"
      ∧ expectedMonoPath "doc.pdf" "ja" ∉ ([] : List String)
      ∧ finalMonoPath "doc.pdf" "ja" ∉ ([] : List String))
    ∧ ((run_pdfmathtranslate ⟨false, false, true⟩ [] "doc.pdf" (some "out.pdf")
          "en" "ja" none).2 = false
      ∧ finalDualPath "doc.pdf" "ja"
          ∈ (run_pdfmathtranslate ⟨false, false, true⟩ [] "doc.pdf" (some "out.pdf")
              "en" "ja" none).1) :=
  ⟨⟨by decide, by decide, by decide, by decide, by decide⟩,
   run_pdfmathtranslate_dual_only_fails [] "doc.pdf" "out.pdf" "en" "ja" none
     (by decide) (by decide) (by decide) (by decide) (by decide)⟩

end PdfTranslator
